import Mathlib

/-!
Shallow embedding of the terminus health-check core:
the result builder in lib/health-indicator/health-indicator.service.ts and the
connectivity probe in lib/health-indicator/database/typeorm.health.ts.

JavaScript objects relevant to the claims are flat string-keyed records; we model
them as association lists without duplicate keys, where assignment replaces the
first matching binding in place (as JS property assignment preserves key order).
-/

/-- A JavaScript value appearing in a detail object. Additional data values are
arbitrary in the source; the claims only need flat scalar values. -/
inductive JsValue where
  | str : String → JsValue
  | num : Int → JsValue
  | bool : Bool → JsValue
  | null : JsValue
deriving DecidableEq, Repr

/-- A flat JavaScript object: ordered bindings from string keys to values. -/
abbrev Obj : Type := List (String × JsValue)

/-- Property read: the binding for the first matching key, if any. -/
def Obj.get : Obj → String → Option JsValue
  | [], _ => none
  | (k', v') :: rest, k => if k' = k then some v' else Obj.get rest k

/-- Property assignment: replace the binding in place when the key exists,
append it otherwise (JS object key-order semantics). -/
def Obj.set : Obj → String → JsValue → Obj
  | [], k, v => [(k, v)]
  | (k', v') :: rest, k, v =>
      if k' = k then (k, v) :: rest else (k', v') :: Obj.set rest k v

/-- Object spread into an existing object: assign every binding of the second
object into the first, left to right. Models a trailing spread such as
the source expression with status first and the additional data spread after it,
where later bindings override earlier ones. -/
def Obj.spreadInto (base : Obj) (extra : Obj) : Obj :=
  extra.foldl (fun acc kv => Obj.set acc kv.1 kv.2) base

/-- The argument accepted by up and down in health-indicator.service.ts:
a mapping, a plain string, or omitted. -/
inductive HealthData where
  | obj : Obj → HealthData
  | str : String → HealthData
  | omitted : HealthData
deriving DecidableEq, Repr

/-- Normalization performed identically by up and down: a string becomes a
singleton message object, a mapping is used as-is, an omitted argument becomes
the empty object. Mirrors the typeof chain in the source. -/
def normalizeData : HealthData → Obj
  | .str s => [("message", JsValue.str s)]
  | .obj o => o
  | .omitted => []

/-- The detail object built by up and down: the status literal first, then the
normalized additional data spread over it. -/
def mkDetail (status : String) (data : HealthData) : Obj :=
  Obj.spreadInto [("status", JsValue.str status)] (normalizeData data)

/-- A status record: the object keyed by the check key holding a detail object. -/
abbrev HealthIndicatorResult : Type := List (String × Obj)

/-- HealthIndicatorSession from health-indicator.service.ts: holds the key fixed
at creation. -/
structure HealthIndicatorSession where
  key : String
deriving DecidableEq, Repr

/-- The down operation of a session: a record with the single key of the session
mapped to a detail object with status down. -/
def HealthIndicatorSession.down (s : HealthIndicatorSession) (data : HealthData) :
    HealthIndicatorResult :=
  [(s.key, mkDetail "down" data)]

/-- The up operation of a session: a record with the single key of the session
mapped to a detail object with status up. -/
def HealthIndicatorSession.up (s : HealthIndicatorSession) (data : HealthData) :
    HealthIndicatorResult :=
  [(s.key, mkDetail "up" data)]

/-- HealthIndicatorService.check: create a session bound to the given key. -/
def HealthIndicatorService.check (key : String) : HealthIndicatorSession :=
  ⟨key⟩

/-!
The connectivity probe, database/typeorm.health.ts.

The probe performs asynchronous effects against external collaborators: the
native mongo client, the query method of the TypeORM data source, the module
reference of the dependency injection container, and the package-presence
check. Each collaborator is modelled as data recording the outcome the
collaborator would produce, and time is modelled by giving each asynchronous
check a duration that the timeout race compares against the budget.
-/

/-- An error reaching the catch block of pingCheck, classified the way the
source classifies with instanceof: the TimeoutError of promiseTimeout, the
MongoConnectionError raised by the document-store side connection (carrying the
underlying message), or any other error. -/
inductive JsError where
  | promiseTimeoutError : JsError
  | mongoConnectionError : String → JsError
  | otherError : String → JsError
deriving DecidableEq, Repr

/-- The outcome an asynchronous check would settle with, together with the time
it takes to settle. -/
structure AsyncOutcome where
  duration : Nat
  result : Except JsError Unit

/-- Behavior of the document-store side-connection collaborators used by
checkMongoDBConnection: the configured url of the connection options, the url
the driver would build from structured options, the outcome of the native
client connect call at a given url (an error carries the message of the
underlying error), the outcome of closing the obtained client, and the time the
whole sequence takes to settle. -/
structure MongoEnv where
  optionsUrl : Option String
  builtUrl : String
  connect : String → Except String Unit
  close : Except String Unit
  duration : Nat

/-- The url checkMongoDBConnection connects to: the configured url of the
connection options when present, otherwise the url built by the driver from the
structured options. -/
def mongoUrl (env : MongoEnv) : String :=
  match env.optionsUrl with
  | some url => url
  | none => env.builtUrl

/-- checkMongoDBConnection: connect a short-lived native client to the url. A
connect failure rejects with a MongoConnectionError wrapping the underlying
message. On success the client is closed and a failure of the close call is
swallowed by the no-op catch handler before the promise resolves, so the
outcome is success whether or not the close call fails. -/
def checkMongoDBConnection (env : MongoEnv) : Except JsError Unit :=
  match env.connect (mongoUrl env) with
  | .error msg => .error (JsError.mongoConnectionError msg)
  | .ok _ =>
      match env.close with
      | .error _ => .ok ()
      | .ok _ => .ok ()

/-- The liveness check selected by the switch in pingDb: either a query with
given statement text dispatched on the connection, or the document-store
side-connection procedure. -/
inductive LivenessCheck where
  | query : String → LivenessCheck
  | sideConnection : LivenessCheck
deriving DecidableEq, Repr

/-- A TypeORM data source handle: the backend kind string of its options, the
behavior of its query method at a given statement text, and the behavior of the
document-store collaborators reachable through it. -/
structure DataSource where
  dbType : String
  query : String → AsyncOutcome
  mongoEnv : MongoEnv

/-- The switch of pingDb over the backend kind of the connection options:
mongodb takes the side-connection procedure, oracle and sap have their
dialect-specific statement texts, every other kind gets the generic one. -/
def livenessCheck (conn : DataSource) : LivenessCheck :=
  if conn.dbType = "mongodb" then LivenessCheck.sideConnection
  else if conn.dbType = "oracle" then LivenessCheck.query "SELECT 1 FROM DUAL"
  else if conn.dbType = "sap" then LivenessCheck.query "SELECT now() FROM dummy"
  else LivenessCheck.query "SELECT 1"

/-- Run the selected check against the connection: a query check settles with
the outcome of the query method, the side-connection check settles with the
outcome of checkMongoDBConnection after the time that sequence takes. -/
def runCheck (conn : DataSource) : LivenessCheck → AsyncOutcome
  | .query sql => conn.query sql
  | .sideConnection => ⟨conn.mongoEnv.duration, checkMongoDBConnection conn.mongoEnv⟩

/-- Modelled from the spec: promiseTimeout from lib/utils (outside this slice)
races the check against a timer of the given budget in milliseconds; when the
timer fires before the check settles the race rejects with the Timeout error
kind, otherwise the race settles with the outcome of the check. -/
def promiseTimeout (budget : Nat) (check : AsyncOutcome) : Except JsError Unit :=
  if budget < check.duration then .error JsError.promiseTimeoutError
  else check.result

/-- pingDb: dispatch the liveness check selected by the backend kind and race
it against the timeout budget. -/
def pingDb (conn : DataSource) (timeout : Nat) : Except JsError Unit :=
  promiseTimeout timeout (runCheck conn (livenessCheck conn))

/-- Modelled from the spec: checkPackages from lib/utils (outside this slice)
verifies that the required optional libraries are resolvable and fails fast
with a descriptive setup error naming the caller and the libraries when they
are not. The presence flag records whether the libraries resolve. -/
def checkPackages (present : Bool) (packages : List String) (caller : String) :
    Except String Unit :=
  if present then .ok ()
  else .error (caller ++ " needs the following packages: " ++
    String.intercalate ", " packages)

/-- The environment of a TypeOrmHealthIndicator call: whether the dependant
packages resolve, and what the module reference lookup of the default data
source token would produce. -/
structure ProbeEnv where
  packagesPresent : Bool
  moduleRefGet : Except String DataSource

/-- checkDependantPackages: check the two dependant packages naming the
indicator class. -/
def checkDependantPackages (env : ProbeEnv) : Except String Unit :=
  checkPackages env.packagesPresent ["@nestjs/typeorm", "typeorm"]
    "TypeOrmHealthIndicator"

/-- getContextConnection: look the default data source token up in the module
reference; a lookup failure is caught and turned into null. -/
def getContextConnection (env : ProbeEnv) : Option DataSource :=
  match env.moduleRefGet with
  | .ok conn => some conn
  | .error _ => none

/-- The settings argument of pingCheck: an optional connection handle and an
optional timeout in milliseconds. -/
structure TypeOrmPingCheckSettings where
  connection : Option DataSource
  timeout : Option Nat

/-- The connection pingCheck uses: the connection of the settings when
supplied, otherwise the connection of the current context. -/
def resolveConnection (env : ProbeEnv) (options : TypeOrmPingCheckSettings) :
    Option DataSource :=
  match options.connection with
  | some conn => some conn
  | none => getContextConnection env

/-- The timeout budget pingCheck uses: the timeout of the settings or 1000,
where or is the JavaScript disjunction, so a supplied 0 is falsy and also
falls back to 1000. -/
def effectiveTimeout (options : TypeOrmPingCheckSettings) : Nat :=
  match options.timeout with
  | some t => if t = 0 then 1000 else t
  | none => 1000

/-- The observable outcome of one pingCheck call: the value it settles with,
where an error is an exception escaping to the caller, and the liveness check
it dispatched, if any. -/
structure PingOutcome where
  result : Except String HealthIndicatorResult
  dispatched : Option LivenessCheck
deriving Repr

/-- The try-catch classification of pingCheck over the outcome of the awaited
pingDb call, in the order of the source: success to up with no additional data,
the Timeout kind to the timeout down-record naming the budget, the
MongoConnectionError kind to a down-record carrying its message verbatim, and
any other error to the generic down-record naming the key. -/
def classifyOutcome (key : String) (timeout : Nat)
    (outcome : Except JsError Unit) : HealthIndicatorResult :=
  let check := HealthIndicatorService.check key
  match outcome with
  | .ok _ => check.up HealthData.omitted
  | .error JsError.promiseTimeoutError =>
      check.down (HealthData.str
        ("timeout of " ++ toString timeout ++ "ms exceeded"))
  | .error (JsError.mongoConnectionError m) =>
      check.down (HealthData.str m)
  | .error (JsError.otherError _) =>
      check.down (HealthData.str (key ++ " is not available"))

/-- pingCheck: create the session for the key, re-run the package-presence
check (outside any try block, so its failure escapes), resolve the connection
and the timeout budget, return the configuration down-record when no connection
is available, otherwise race the liveness check against the budget and classify
the caught outcome. -/
def pingCheck (env : ProbeEnv) (key : String)
    (options : TypeOrmPingCheckSettings) : PingOutcome :=
  match checkDependantPackages env with
  | .error e => ⟨.error e, none⟩
  | .ok _ =>
      match resolveConnection env options with
      | none =>
          ⟨.ok ((HealthIndicatorService.check key).down
            (HealthData.str "Connection provider not found in application context")),
           none⟩
      | some conn =>
          ⟨.ok (classifyOutcome key (effectiveTimeout options)
              (pingDb conn (effectiveTimeout options))),
           some (livenessCheck conn)⟩

/-! Concrete environments and handles used to exercise the embedding. -/

/-- A document-store environment whose collaborators all succeed instantly. -/
def mongoEnvOk : MongoEnv :=
  ⟨none, "mongodb://localhost:27017", fun _ => Except.ok (), Except.ok (), 0⟩

/-- A document-store environment whose native connect call is refused. -/
def mongoEnvRefused : MongoEnv :=
  ⟨some "mongodb://db:27017", "mongodb://db:27017",
   fun _ => Except.error "connection refused", Except.ok (), 0⟩

/-- A document-store environment that connects but whose close call fails. -/
def mongoEnvCloseFails : MongoEnv :=
  ⟨some "mongodb://db:27017", "mongodb://db:27017",
   fun _ => Except.ok (), Except.error "client was already closed", 0⟩

/-- A data source of the given backend kind whose query settles instantly with
success. -/
def healthyConn (dbType : String) : DataSource :=
  ⟨dbType, fun _ => ⟨0, Except.ok ()⟩, mongoEnvOk⟩

/-- A data source whose query hangs far past any budget used here. -/
def slowConn : DataSource :=
  ⟨"postgres", fun _ => ⟨2000000, Except.ok ()⟩, mongoEnvOk⟩

/-- A data source whose query is rejected by the driver. -/
def failingConn : DataSource :=
  ⟨"postgres", fun _ => ⟨0, Except.error (JsError.otherError "ECONNREFUSED")⟩,
   mongoEnvOk⟩

/-- A document-store data source whose side connection is refused. -/
def mongoDownConn : DataSource :=
  ⟨"mongodb", fun _ => ⟨0, Except.ok ()⟩, mongoEnvRefused⟩

/-- A document-store data source that connects but fails to close. -/
def mongoCloseFailConn : DataSource :=
  ⟨"mongodb", fun _ => ⟨0, Except.ok ()⟩, mongoEnvCloseFails⟩

/-! Association-list lemmas about get, set and spreadInto. -/

theorem Obj.get_set_ne (o : Obj) (k' k : String) (v : JsValue) (h : k' ≠ k) :
    Obj.get (Obj.set o k' v) k = Obj.get o k := by
  induction o with
  | nil => simp [Obj.set, Obj.get, h]
  | cons hd tl ih =>
      simp only [Obj.set]
      by_cases hk : hd.1 = k'
      · rw [if_pos hk]
        simp [Obj.get, hk, h]
      · rw [if_neg hk]
        simp only [Obj.get, ih]

theorem Obj.get_spreadInto_of_get_none (base extra : Obj) (k : String)
    (h : Obj.get extra k = none) :
    Obj.get (Obj.spreadInto base extra) k = Obj.get base k := by
  induction extra generalizing base with
  | nil => rfl
  | cons hd tl ih =>
      simp only [Obj.get] at h
      by_cases hk : hd.1 = k
      · simp [hk] at h
      · simp only [hk, if_false] at h
        simpa [Obj.spreadInto, List.foldl] using
          (ih (Obj.set base hd.1 hd.2) h).trans (Obj.get_set_ne base hd.1 k hd.2 hk)

theorem checkDependantPackages_of_present (env : ProbeEnv)
    (hp : env.packagesPresent = true) :
    checkDependantPackages env = Except.ok () := by
  simp [checkDependantPackages, checkPackages, hp]

theorem pingCheck_resolved (env : ProbeEnv) (key : String)
    (options : TypeOrmPingCheckSettings) (conn : DataSource)
    (hp : env.packagesPresent = true)
    (hc : resolveConnection env options = some conn) :
    pingCheck env key options =
      ⟨Except.ok (classifyOutcome key (effectiveTimeout options)
          (pingDb conn (effectiveTimeout options))),
       some (livenessCheck conn)⟩ := by
  unfold pingCheck
  rw [checkDependantPackages_of_present env hp, hc]

theorem pingCheck_result_resolved (env : ProbeEnv) (key : String)
    (options : TypeOrmPingCheckSettings) (conn : DataSource)
    (hp : env.packagesPresent = true)
    (hc : resolveConnection env options = some conn) :
    (pingCheck env key options).result =
      Except.ok (classifyOutcome key (effectiveTimeout options)
        (pingDb conn (effectiveTimeout options))) := by
  rw [pingCheck_resolved env key options conn hp hc]

/-! Claims about the result builder. -/

/-- C1 fails as stated: when the additional data itself carries a status
binding, the trailing spread in the source places it after the status literal,
so the conflicting value overrides the literal. At the concrete input below,
down with additional data carrying status up produces a detail object whose
status binding is the string up, not the literal down of the operation. -/
theorem C1_counterexample :
    (HealthIndicatorService.check "db").down
        (HealthData.obj [("status", JsValue.str "up")])
      = [("db", [("status", JsValue.str "up")])]
    ∧ Obj.get (mkDetail "down" (HealthData.obj [("status", JsValue.str "up")]))
        "status" ≠ some (JsValue.str "down") :=
  ⟨rfl, by decide⟩

/-- C1 (amended): for every key and every additional data whose normalized form
carries no status binding of its own, the detail object produced by up and by
down has its status binding equal to the literal of the operation called; when
the additional data does carry a status binding, that value overrides the
literal. -/
theorem C1_amended_status_literal (k : String) (d : HealthData)
    (h : Obj.get (normalizeData d) "status" = none) :
    Obj.get (mkDetail "up" d) "status" = some (JsValue.str "up")
    ∧ Obj.get (mkDetail "down" d) "status" = some (JsValue.str "down")
    ∧ (HealthIndicatorService.check k).up d = [(k, mkDetail "up" d)]
    ∧ (HealthIndicatorService.check k).down d = [(k, mkDetail "down" d)] := by
  refine ⟨?_, ?_, rfl, rfl⟩ <;>
  · rw [mkDetail, Obj.get_spreadInto_of_get_none _ _ _ h]
    simp [Obj.get]

/-- Witness for C1 (amended) at a concrete key and mapping without a status
binding. -/
theorem C1_amended_status_literal_witness :
    Obj.get (mkDetail "up" (HealthData.obj [("disk", JsValue.num 3)])) "status"
      = some (JsValue.str "up")
    ∧ Obj.get (mkDetail "down" (HealthData.obj [("disk", JsValue.num 3)])) "status"
      = some (JsValue.str "down")
    ∧ (HealthIndicatorService.check "db").up (HealthData.obj [("disk", JsValue.num 3)])
      = [("db", mkDetail "up" (HealthData.obj [("disk", JsValue.num 3)]))]
    ∧ (HealthIndicatorService.check "db").down (HealthData.obj [("disk", JsValue.num 3)])
      = [("db", mkDetail "down" (HealthData.obj [("disk", JsValue.num 3)]))] :=
  C1_amended_status_literal "db" (HealthData.obj [("disk", JsValue.num 3)]) (by decide)

/-- C3: for every key and every additional data (mapping, string, or omitted),
the record returned by up and by down is a mapping with exactly one entry whose
key is the key supplied at session creation. -/
theorem C3_single_entry_key (k : String) (d : HealthData) :
    ((HealthIndicatorService.check k).up d).map Prod.fst = [k]
    ∧ ((HealthIndicatorService.check k).down d).map Prod.fst = [k] :=
  ⟨rfl, rfl⟩

/-- C9: for every key and string, up and down applied to the string equal up
and down applied to the singleton message mapping, and the omitted argument is
equivalent to the empty mapping. -/
theorem C9_string_normalization (k s : String) :
    (HealthIndicatorService.check k).up (HealthData.str s)
      = (HealthIndicatorService.check k).up
          (HealthData.obj [("message", JsValue.str s)])
    ∧ (HealthIndicatorService.check k).down (HealthData.str s)
      = (HealthIndicatorService.check k).down
          (HealthData.obj [("message", JsValue.str s)])
    ∧ (HealthIndicatorService.check k).up HealthData.omitted
      = (HealthIndicatorService.check k).up (HealthData.obj [])
    ∧ (HealthIndicatorService.check k).down HealthData.omitted
      = (HealthIndicatorService.check k).down (HealthData.obj []) :=
  ⟨rfl, rfl, rfl, rfl⟩

/-! Claims about the connectivity probe. -/

/-- C2 fails as stated: the per-call package-presence check runs before the try
block of pingCheck, so its failure is not caught and escapes to the caller as
an exception instead of being converted to a Status Record, shown here on a
concrete call with the packages missing. -/
theorem C2_counterexample :
    (pingCheck ⟨false, Except.error "data source not registered"⟩ "database"
        ⟨none, none⟩).result
      = Except.error
          "TypeOrmHealthIndicator needs the following packages: @nestjs/typeorm, typeorm" :=
  rfl

/-- C2 (amended): whenever the dependant packages are present, pingCheck never
lets an exception escape to its caller: the connection-handle lookup and every
failure of the liveness query are caught and converted to a Status Record. A
failure of the per-call package-presence check, however, escapes. -/
theorem C2_amended_no_escape (env : ProbeEnv) (key : String)
    (options : TypeOrmPingCheckSettings) (hp : env.packagesPresent = true) :
    (pingCheck env key options).result.isOk = true := by
  unfold pingCheck
  rw [checkDependantPackages_of_present env hp]
  cases resolveConnection env options <;> rfl

/-- Witness for C2 (amended) at a concrete call whose context lookup fails. -/
theorem C2_amended_no_escape_witness :
    (pingCheck ⟨true, Except.error "data source not registered"⟩ "database"
        ⟨none, none⟩).result.isOk = true :=
  C2_amended_no_escape ⟨true, Except.error "data source not registered"⟩
    "database" ⟨none, none⟩ rfl

/-- C4: the liveness check dispatched by the probe is selected by the backend
kind of the connection: oracle issues SELECT 1 FROM DUAL, sap issues
SELECT now() FROM dummy, mongodb takes the side-connection procedure, and every
other kind issues the generic SELECT 1; and a pingCheck call that resolves a
connection dispatches exactly the check so selected. -/
theorem C4_dispatch_by_kind (conn : DataSource) :
    (conn.dbType = "mongodb" → livenessCheck conn = LivenessCheck.sideConnection)
    ∧ (conn.dbType = "oracle" →
        livenessCheck conn = LivenessCheck.query "SELECT 1 FROM DUAL")
    ∧ (conn.dbType = "sap" →
        livenessCheck conn = LivenessCheck.query "SELECT now() FROM dummy")
    ∧ (conn.dbType ≠ "mongodb" → conn.dbType ≠ "oracle" → conn.dbType ≠ "sap" →
        livenessCheck conn = LivenessCheck.query "SELECT 1")
    ∧ (∀ (env : ProbeEnv) (key : String) (options : TypeOrmPingCheckSettings),
        env.packagesPresent = true →
        resolveConnection env options = some conn →
        (pingCheck env key options).dispatched = some (livenessCheck conn)) := by
  refine ⟨?_, ?_, ?_, ?_, ?_⟩
  · intro h; simp [livenessCheck, h]
  · intro h; simp [livenessCheck, h]
  · intro h; simp [livenessCheck, h]
  · intro h1 h2 h3; simp [livenessCheck, h1, h2, h3]
  · intro env key options hp hc
    unfold pingCheck
    rw [checkDependantPackages_of_present env hp, hc]

/-- Witness for C4 at concrete handles of each backend kind. -/
theorem C4_dispatch_by_kind_witness :
    livenessCheck (healthyConn "mongodb") = LivenessCheck.sideConnection
    ∧ livenessCheck (healthyConn "oracle") = LivenessCheck.query "SELECT 1 FROM DUAL"
    ∧ livenessCheck (healthyConn "sap") = LivenessCheck.query "SELECT now() FROM dummy"
    ∧ livenessCheck (healthyConn "mysql") = LivenessCheck.query "SELECT 1"
    ∧ (pingCheck ⟨true, Except.error "nf"⟩ "db"
        ⟨some (healthyConn "oracle"), none⟩).dispatched
      = some (livenessCheck (healthyConn "oracle")) :=
  ⟨(C4_dispatch_by_kind (healthyConn "mongodb")).1 rfl,
   (C4_dispatch_by_kind (healthyConn "oracle")).2.1 rfl,
   (C4_dispatch_by_kind (healthyConn "sap")).2.2.1 rfl,
   (C4_dispatch_by_kind (healthyConn "mysql")).2.2.2.1
     (by decide) (by decide) (by decide),
   (C4_dispatch_by_kind (healthyConn "oracle")).2.2.2.2
     ⟨true, Except.error "nf"⟩ "db" ⟨some (healthyConn "oracle"), none⟩ rfl rfl⟩

/-- C5: when the settings carry no connection and the context lookup resolves
none, pingCheck returns the configuration down-record with the exact message
and dispatches no liveness check. -/
theorem C5_no_connection (env : ProbeEnv) (key : String)
    (options : TypeOrmPingCheckSettings)
    (hp : env.packagesPresent = true)
    (hconn : options.connection = none)
    (hctx : getContextConnection env = none) :
    pingCheck env key options =
      ⟨Except.ok [(key, [("status", JsValue.str "down"),
          ("message",
           JsValue.str "Connection provider not found in application context")])],
       none⟩ := by
  have hres : resolveConnection env options = none := by
    simp [resolveConnection, hconn, hctx]
  unfold pingCheck
  rw [checkDependantPackages_of_present env hp, hres]
  rfl

/-- Witness for C5 at a concrete call with empty settings and a failing context
lookup. -/
theorem C5_no_connection_witness :
    pingCheck ⟨true, Except.error "data source not registered"⟩ "db" ⟨none, none⟩ =
      ⟨Except.ok [("db", [("status", JsValue.str "down"),
          ("message",
           JsValue.str "Connection provider not found in application context")])],
       none⟩ :=
  C5_no_connection ⟨true, Except.error "data source not registered"⟩ "db"
    ⟨none, none⟩ rfl rfl rfl

/-- C6 fails as stated at a supplied timeout of 0: the source computes the
budget with the JavaScript disjunction, so the falsy 0 falls back to the
default and the timeout down-record names 1000, not the supplied 0. -/
theorem C6_counterexample :
    effectiveTimeout ⟨some slowConn, some 0⟩ = 1000
    ∧ (pingCheck ⟨true, Except.error "nf"⟩ "db" ⟨some slowConn, some 0⟩).result
      = Except.ok [("db", [("status", JsValue.str "down"),
          ("message", JsValue.str "timeout of 1000ms exceeded")])]
    ∧ (1000 : Nat) ≠ 0 :=
  ⟨rfl, rfl, by decide⟩

/-- C6 (amended): the timeout budget equals settings.timeout when supplied and
nonzero and 1000 ms otherwise, and whenever the liveness check fails with the
Timeout error kind, pingCheck returns a down-record whose message names that
budget exactly. -/
theorem C6_amended_timeout_budget (env : ProbeEnv) (key : String)
    (options : TypeOrmPingCheckSettings) (conn : DataSource)
    (hp : env.packagesPresent = true)
    (hc : resolveConnection env options = some conn)
    (ht : pingDb conn (effectiveTimeout options)
        = Except.error JsError.promiseTimeoutError) :
    (∀ t, options.timeout = some t → t ≠ 0 → effectiveTimeout options = t)
    ∧ (options.timeout = none → effectiveTimeout options = 1000)
    ∧ (options.timeout = some 0 → effectiveTimeout options = 1000)
    ∧ (pingCheck env key options).result
      = Except.ok [(key, [("status", JsValue.str "down"),
          ("message", JsValue.str
            ("timeout of " ++ toString (effectiveTimeout options)
              ++ "ms exceeded"))])] := by
  refine ⟨?_, ?_, ?_, ?_⟩
  · intro t hsome hne; simp [effectiveTimeout, hsome, hne]
  · intro hnone; simp [effectiveTimeout, hnone]
  · intro hzero; simp [effectiveTimeout, hzero]
  · rw [pingCheck_result_resolved env key options conn hp hc, ht]
    rfl

/-- Witness for C6 (amended) at a supplied budget of 50 ms and a hanging
query. -/
theorem C6_amended_timeout_budget_witness :
    effectiveTimeout ⟨some slowConn, some 50⟩ = 50
    ∧ (pingCheck ⟨true, Except.error "nf"⟩ "db" ⟨some slowConn, some 50⟩).result
      = Except.ok [("db", [("status", JsValue.str "down"),
          ("message", JsValue.str
            ("timeout of " ++ toString (effectiveTimeout ⟨some slowConn, some 50⟩)
              ++ "ms exceeded"))])] :=
  ⟨(C6_amended_timeout_budget ⟨true, Except.error "nf"⟩ "db"
      ⟨some slowConn, some 50⟩ slowConn rfl rfl rfl).1 50 rfl (by decide),
   (C6_amended_timeout_budget ⟨true, Except.error "nf"⟩ "db"
      ⟨some slowConn, some 50⟩ slowConn rfl rfl rfl).2.2.2⟩

/-- C7: a non-timeout failure of the liveness check is classified by pingCheck:
a MongoConnectionError from the document-store side-connection wrapper yields a
down-record carrying the underlying message verbatim, and any other error
yields the generic down-record naming only the key. -/
theorem C7_error_classification (env : ProbeEnv) (key : String)
    (options : TypeOrmPingCheckSettings) (conn : DataSource)
    (hp : env.packagesPresent = true)
    (hc : resolveConnection env options = some conn) :
    (∀ m, pingDb conn (effectiveTimeout options)
        = Except.error (JsError.mongoConnectionError m) →
      (pingCheck env key options).result
        = Except.ok [(key, [("status", JsValue.str "down"),
            ("message", JsValue.str m)])])
    ∧ (∀ m, pingDb conn (effectiveTimeout options)
        = Except.error (JsError.otherError m) →
      (pingCheck env key options).result
        = Except.ok [(key, [("status", JsValue.str "down"),
            ("message", JsValue.str (key ++ " is not available"))])]) := by
  constructor
  · intro m hm
    rw [pingCheck_result_resolved env key options conn hp hc, hm]
    rfl
  · intro m hm
    rw [pingCheck_result_resolved env key options conn hp hc, hm]
    rfl

/-- Witness for C7 at a refused document-store side connection and at a driver
rejection on a relational handle. -/
theorem C7_error_classification_witness :
    (pingCheck ⟨true, Except.error "nf"⟩ "db" ⟨some mongoDownConn, none⟩).result
      = Except.ok [("db", [("status", JsValue.str "down"),
          ("message", JsValue.str "connection refused")])]
    ∧ (pingCheck ⟨true, Except.error "nf"⟩ "db" ⟨some failingConn, none⟩).result
      = Except.ok [("db", [("status", JsValue.str "down"),
          ("message", JsValue.str ("db" ++ " is not available"))])] :=
  ⟨(C7_error_classification ⟨true, Except.error "nf"⟩ "db"
      ⟨some mongoDownConn, none⟩ mongoDownConn rfl rfl).1 "connection refused" rfl,
   (C7_error_classification ⟨true, Except.error "nf"⟩ "db"
      ⟨some failingConn, none⟩ failingConn rfl rfl).2 "ECONNREFUSED" rfl⟩

/-- C8: for a document-store connection whose side-connection open succeeds,
the probe reports success even when closing the side connection fails: the
close error is swallowed and the record is the up-record. -/
theorem C8_close_failure_swallowed (env : ProbeEnv) (key : String)
    (options : TypeOrmPingCheckSettings) (conn : DataSource) (e : String)
    (hp : env.packagesPresent = true)
    (hc : resolveConnection env options = some conn)
    (hkind : conn.dbType = "mongodb")
    (hconnect : conn.mongoEnv.connect (mongoUrl conn.mongoEnv) = Except.ok ())
    (hclose : conn.mongoEnv.close = Except.error e)
    (ht : conn.mongoEnv.duration ≤ effectiveTimeout options) :
    checkMongoDBConnection conn.mongoEnv = Except.ok ()
    ∧ (pingCheck env key options).result
      = Except.ok [(key, [("status", JsValue.str "up")])] := by
  have hmongo : checkMongoDBConnection conn.mongoEnv = Except.ok () := by
    simp [checkMongoDBConnection, hconnect, hclose]
  have hlc : livenessCheck conn = LivenessCheck.sideConnection := by
    simp [livenessCheck, hkind]
  have hping : pingDb conn (effectiveTimeout options) = Except.ok () := by
    simp [pingDb, hlc, runCheck, promiseTimeout, Nat.not_lt.mpr ht, hmongo]
  refine ⟨hmongo, ?_⟩
  rw [pingCheck_result_resolved env key options conn hp hc, hping]
  rfl

/-- Witness for C8 at a concrete document-store handle whose close call
fails. -/
theorem C8_close_failure_swallowed_witness :
    checkMongoDBConnection mongoCloseFailConn.mongoEnv = Except.ok ()
    ∧ (pingCheck ⟨true, Except.error "nf"⟩ "db"
        ⟨some mongoCloseFailConn, none⟩).result
      = Except.ok [("db", [("status", JsValue.str "up")])] :=
  C8_close_failure_swallowed ⟨true, Except.error "nf"⟩ "db"
    ⟨some mongoCloseFailConn, none⟩ mongoCloseFailConn "client was already closed"
    rfl rfl rfl rfl rfl (Nat.zero_le _)

/-- C10: a supplied timeout of 0 is falsy for the JavaScript disjunction
computing the budget, so the effective budget is the default 1000 ms and the
call behaves exactly as a call with no timeout supplied. -/
theorem C10_zero_timeout_falls_back (env : ProbeEnv) (key : String)
    (c : Option DataSource) :
    effectiveTimeout ⟨c, some 0⟩ = 1000
    ∧ pingCheck env key ⟨c, some 0⟩ = pingCheck env key ⟨c, none⟩ :=
  ⟨rfl, rfl⟩
